import Mathlib

/-!
Verification of the adaptive-quiz core of `AdaptiQuiz/app.py` (the active,
uncommented code of the file): the difficulty state machine
(`update_difficulty`), the resilient question-generation loop
(`get_question`), the concept-history slice handed to the prompt, the
timeout and submission handlers of `display_question_with_timer`, and the
configuration form submit of `display_configuration_form`.

Python dictionaries read with `.get(key)` are embedded as `Option`-valued
fields (`none` models both an absent key and an explicit `None` value);
an uncaught Python exception (a `KeyError` from `d[key]`, a `ValueError`
from `list.index`, an `IndexError` from `random.choice`) is embedded as an
`Option`-returning function yielding `none`.
-/

set_option autoImplicit false

namespace AdaptiQuiz

/-- A question record as produced by the JSON parser / the fallback branch of
`get_question`. Every field is optional because the handlers read the record
with `dict.get`, which yields `None` when the key is absent. -/
structure QuestionData where
  question : Option String
  choices : Option (List String)
  correct_answer : Option String
  explanation : Option String
  concept : Option String
  deriving DecidableEq, Repr

/-- One entry of `st.session_state.answers`. The timeout branch appends a
record without a `difficulty` key, the submission branch appends one with it;
`difficulty = none` models the absent key. -/
structure AnswerRecord where
  question : String
  user_answer : Option String
  correct : Bool
  concept : Option String
  difficulty : Option String
  deriving DecidableEq, Repr

/-- The slice of `st.session_state` that the quiz-turn logic reads and
writes. `userInputsAdaptive` is
`st.session_state.user_inputs["Testing Structure"]["Adaptive Progression"]`. -/
structure SessionState where
  userInputsAdaptive : Bool
  current_difficulty : String
  consecutive_correct : Nat
  score : Nat
  answers : List AnswerRecord
  asked_concepts : List String
  show_answer : Bool
  timer_expired : Bool
  answer_submitted : Bool
  force_rerun : Bool
  deriving DecidableEq, Repr

/-- `difficulty_levels` of `update_difficulty`. -/
def difficultyLevels : List String :=
  ["Beginner", "Intermediate", "Senior Level", "Hiring Challenge"]

/-- `update_difficulty(is_correct)` (app.py lines 87-112). Returns `none` when
`difficulty_levels.index(...)` would raise `ValueError` (the current
difficulty is not one of the four levels); `List.indexOf` returns the list
length exactly in that case. -/
def update_difficulty (s : SessionState) (is_correct : Bool) : Option SessionState :=
  if s.userInputsAdaptive = false then
    some s
  else
    let current_idx := difficultyLevels.indexOf s.current_difficulty
    if difficultyLevels.length ≤ current_idx then
      none
    else if is_correct then
      let s1 := { s with consecutive_correct := s.consecutive_correct + 1 }
      if 2 ≤ s1.consecutive_correct ∧ current_idx < difficultyLevels.length - 1 then
        some { s1 with
          current_difficulty := difficultyLevels.getD (current_idx + 1) "",
          consecutive_correct := 0 }
      else
        some s1
    else
      let s1 := { s with consecutive_correct := 0 }
      if 0 < current_idx then
        some { s1 with current_difficulty := difficultyLevels.getD (current_idx - 1) "" }
      else
        some s1

/-- Outcome of one `chain.invoke(...)` call inside `get_question`'s retry
loop: a parsed question, an exception whose message contains `"429"` or
`"Rate limit"`, or any other exception (parsing/validation error). -/
inductive GenResult where
  | success (q : QuestionData)
  | rateLimited
  | validationError
  deriving DecidableEq, Repr

/-- `true` for the two exception outcomes of an attempt. -/
def GenResult.isFailure : GenResult → Bool
  | .success _ => false
  | .rateLimited => true
  | .validationError => true

/-- `max_retries = 3` of `get_question`. -/
def max_retries : Nat := 3

/-- `base_delay = 1.5` seconds of `get_question`. -/
def base_delay : ℚ := 3 / 2

/-- `asked_concepts[-5:]`: the slice of the concept history that
`get_question` hands to the generation prompt. For a list of length at most
5 this is the whole list (`Nat` subtraction gives `drop 0`), otherwise the
last five entries, exactly as the Python negative slice behaves. -/
def promptedConcepts (asked_concepts : List String) : List String :=
  asked_concepts.drop (asked_concepts.length - 5)

/-- The fixed record of `get_question`'s "Zero-Fallback Safety Net"
(app.py lines 177-184). -/
def fallbackQuestion : QuestionData where
  question := some "We are experiencing high API traffic. Please identify the concept of 'Rate Limiting'."
  choices := some ["Controlling traffic flow", "Deleting database", "Increasing speed", "None"]
  correct_answer := some "Controlling traffic flow"
  explanation := some "This is a fallback question generated due to API congestion."
  concept := some "API Reliability"

/-- The `for attempt in range(max_retries)` loop of `get_question`. `chain`
abstracts `chain.invoke` (prompted concept slice and attempt number in,
outcome out); `fuel` counts the remaining loop iterations; the second
component accumulates the seconds slept by the rate-limit backoff
`base_delay * (2 ** attempt)`. When the loop exhausts its iterations the
fallback record is returned. -/
def get_question_go (chain : List String → Nat → GenResult) (prompted : List String) :
    Nat → Nat → ℚ → QuestionData × ℚ
  | _, 0, delay => (fallbackQuestion, delay)
  | attempt, fuel + 1, delay =>
    match chain prompted attempt with
    | .success q => (q, delay)
    | .rateLimited =>
        get_question_go chain prompted (attempt + 1) fuel (delay + base_delay * 2 ^ attempt)
    | .validationError => get_question_go chain prompted (attempt + 1) fuel delay

/-- `get_question` (app.py lines 114-184): run the retry loop from attempt 0
with `max_retries` iterations and zero accumulated delay, handing the prompt
the last-5 slice of the concept history. Returns the question together with
the total seconds slept. -/
def get_question (chain : List String → Nat → GenResult) (asked_concepts : List String) :
    QuestionData × ℚ :=
  get_question_go chain (promptedConcepts asked_concepts) 0 max_retries 0

/-- The timeout branch of `display_question_with_timer` (app.py lines
270-283): when the deadline passes with no submission, set `timer_expired`
and `show_answer`, append an answer record with `user_answer = None` and
`correct = False` (and no `difficulty` key), and set `force_rerun`.
`question_data['question']` raises `KeyError` when the key is absent, hence
the `Option` result. The difficulty controller is not invoked here. -/
def handle_timeout (question_data : QuestionData) (s : SessionState) : Option SessionState :=
  match question_data.question with
  | none => none
  | some qtext =>
    some { s with
      timer_expired := true
      show_answer := true
      answers := s.answers ++
        [{ question := qtext, user_answer := none, correct := false,
           concept := question_data.concept, difficulty := none }]
      force_rerun := true }

/-- The submission branch of `display_question_with_timer` (app.py lines
294-318), reached when the form was submitted with a choice selected:
compare the choice against `question_data.get('correct_answer')` (Python
`str == None` is `False`, embedded as `Option` equality against
`some user_choice`), bump the score on a correct answer, run
`update_difficulty`, append the answer record (whose `difficulty` field
reads the post-update difficulty), append the concept to the history and
set the display flags. -/
def handle_submission (question_data : QuestionData) (user_choice : String)
    (s : SessionState) : Option SessionState :=
  let s0 := { s with answer_submitted := true }
  let is_correct := question_data.correct_answer == some user_choice
  let s1 := if is_correct then { s0 with score := s0.score + 1 } else s0
  match update_difficulty s1 is_correct with
  | none => none
  | some s2 =>
    match question_data.question with
    | none => none
    | some qtext =>
      some { s2 with
        answers := s2.answers ++
          [{ question := qtext, user_answer := some user_choice, correct := is_correct,
             concept := question_data.concept, difficulty := some s2.current_difficulty }]
        asked_concepts := s2.asked_concepts ++ [question_data.concept.getD ""]
        show_answer := true
        force_rerun := true }

/-- The fields of the configuration form of `display_configuration_form`
(app.py lines 193-208). -/
structure ConfigForm where
  test_name : String
  question_count : Nat
  time_limit : String
  adaptive_progression : Bool
  target_role : List String
  difficulty : String
  tech_stack : String
  question_style : List String
  deriving DecidableEq, Repr

/-- The value produced by `st.slider(label, lo, hi, default)`: the widget
clamps whatever the user drags to into `[lo, hi]`, so the Question Count
slider (`lo = 1`) can never yield a non-positive count. -/
def slider_value (lo hi val : Nat) : Nat := max lo (min val hi)

/-- Python `sub in s` for the fixed option strings of the form. -/
def strContains (s sub : String) : Bool := 2 ≤ (s.splitOn sub).length

/-- `int(total_time.split()[0])` for the form's option strings; `Option`-free
because the three selectable values all start with a numeral. -/
def firstTokenNat (s : String) : Nat := (((s.splitOn " ").headD "").toNat?).getD 0

/-- `calculate_time_per_question` (app.py lines 70-81). The slider guarantees
`total_questions ≥ 1`, so the division is never by zero. -/
def calculate_time_per_question (total_time : String) (total_questions : Nat) : ℚ :=
  let total_seconds : ℚ :=
    if strContains total_time "hour" then (firstTokenNat total_time : ℚ) * 3600
    else if strContains total_time "mins" then (firstTokenNat total_time : ℚ) * 60
    else 90 * 60
  total_seconds / (total_questions : ℚ)

/-- The session fields assigned by the `if submitted:` branch of
`display_configuration_form` (app.py lines 212-233). -/
structure StartedSession where
  quiz_started : Bool
  question_styles : List String
  question_count : Nat
  time_per_question : ℚ
  current_difficulty : String
  deriving DecidableEq, Repr

/-- The `if submitted:` branch of `display_configuration_form`: the form is
accepted unconditionally — no field is validated — and the quiz is marked
started. -/
def submit_config (f : ConfigForm) : StartedSession where
  quiz_started := true
  question_styles := f.question_style
  question_count := f.question_count
  time_per_question := calculate_time_per_question f.time_limit f.question_count
  current_difficulty := f.difficulty

/-- `random.choice(seq)` with the random draw `k` made explicit: raises
`IndexError` (here `none`) on an empty sequence, otherwise returns an
element. -/
def random_choice {α : Type} (l : List α) (k : Nat) : Option α :=
  if l.isEmpty then none else l[k % l.length]?

/-- The style pick at the start of a question turn in `display_quiz`
(app.py line 331): `random.choice(styles)` over the configured styles. -/
def pick_style (session : StartedSession) (k : Nat) : Option String :=
  random_choice session.question_styles k

/-! ### Computation lemmas for the difficulty level table -/

@[simp] theorem indexOf_beginner : difficultyLevels.indexOf "Beginner" = 0 := by decide

@[simp] theorem indexOf_intermediate : difficultyLevels.indexOf "Intermediate" = 1 := by decide

@[simp] theorem indexOf_senior : difficultyLevels.indexOf "Senior Level" = 2 := by decide

@[simp] theorem indexOf_hiring : difficultyLevels.indexOf "Hiring Challenge" = 3 := by decide

@[simp] theorem difficultyLevels_length : difficultyLevels.length = 4 := rfl

@[simp] theorem difficultyLevels_ne_nil : ¬ difficultyLevels = [] := by decide

@[simp] theorem difficultyLevels_get0 : difficultyLevels[0]? = some "Beginner" := rfl

@[simp] theorem difficultyLevels_get1 : difficultyLevels[1]? = some "Intermediate" := rfl

@[simp] theorem difficultyLevels_get2 : difficultyLevels[2]? = some "Senior Level" := rfl

@[simp] theorem difficultyLevels_get3 : difficultyLevels[3]? = some "Hiring Challenge" := rfl

@[simp] theorem getD_zero : difficultyLevels.getD 0 "" = "Beginner" := rfl

@[simp] theorem getD_one : difficultyLevels.getD 1 "" = "Intermediate" := rfl

@[simp] theorem getD_two : difficultyLevels.getD 2 "" = "Senior Level" := rfl

@[simp] theorem getD_three : difficultyLevels.getD 3 "" = "Hiring Challenge" := rfl

/-! ### C9 -/

/-- C9: when the adaptive-progression flag of the session configuration is
false, `update_difficulty` returns at once, leaving the whole session state —
in particular the difficulty level and the consecutive-correct counter —
exactly unchanged, for a correct answer as well as an incorrect one. -/
theorem C9_adaptive_off_noop (s : SessionState) (b : Bool)
    (hA : s.userInputsAdaptive = false) :
    update_difficulty s b = some s := by
  simp [update_difficulty, hA]

def c9wstate : SessionState :=
  { userInputsAdaptive := false, current_difficulty := "Senior Level",
    consecutive_correct := 1, score := 4, answers := [], asked_concepts := [],
    show_answer := false, timer_expired := false, answer_submitted := false,
    force_rerun := false }

/-- C9 witness: the no-op at a concrete state with the flag off. -/
theorem C9_adaptive_off_noop_witness :
    update_difficulty c9wstate true = some c9wstate :=
  C9_adaptive_off_noop c9wstate true rfl

/-! ### C2 -/

def c2state : SessionState :=
  { userInputsAdaptive := true, current_difficulty := "Hiring Challenge",
    consecutive_correct := 1, score := 0, answers := [], asked_concepts := [],
    show_answer := false, timer_expired := false, answer_submitted := false,
    force_rerun := false }

/-- C2 counterexample: at the maximum level (`"Hiring Challenge"`) with
adaptive progression on and the counter at 1, a correct answer brings the
counter to the threshold 2 but the guard `current_idx < len(levels) - 1`
fails, so the counter is NOT reset to 0 — it stays at 2, refuting the claim
that it still resets at the top level. -/
theorem C2_counterexample :
    (update_difficulty c2state true).map SessionState.consecutive_correct = some 2 ∧
    ¬ (update_difficulty c2state true).map SessionState.consecutive_correct = some 0 := by
  decide

/-- C2 amended: at the maximum level with adaptive progression on, a correct
answer leaves the level unchanged and merely increments the
consecutive-correct counter; the counter is never reset at the top level and
therefore grows without bound under repeated correct answers. -/
theorem C2_max_level_counter_grows (s : SessionState)
    (hA : s.userInputsAdaptive = true)
    (hmax : s.current_difficulty = "Hiring Challenge") :
    update_difficulty s true =
      some { s with consecutive_correct := s.consecutive_correct + 1 } := by
  simp [update_difficulty, hA, hmax]

/-- C2 amended witness: the increment-without-reset at the concrete state
used for the counterexample. -/
theorem C2_max_level_counter_grows_witness :
    update_difficulty c2state true =
      some { c2state with consecutive_correct := c2state.consecutive_correct + 1 } :=
  C2_max_level_counter_grows c2state rfl rfl

/-! ### C1 -/

def c1qd : QuestionData :=
  { question := some "What does a for loop do?", choices := some ["a", "b", "c", "d"],
    correct_answer := some "a", explanation := some "iteration", concept := some "Loops" }

def c1state : SessionState :=
  { userInputsAdaptive := true, current_difficulty := "Intermediate",
    consecutive_correct := 1, score := 2, answers := [], asked_concepts := [],
    show_answer := false, timer_expired := false, answer_submitted := false,
    force_rerun := false }

/-- C1 counterexample: a timeout at difficulty `"Intermediate"` with the
counter at 1 and adaptive progression on appends the expected record
(`user_answer` absent, `correct = false`), but the timeout branch never
invokes `update_difficulty`: the counter stays 1 instead of resetting to 0
and the level stays `"Intermediate"` instead of dropping, refuting the claim
that the controller's counters are updated as for an incorrect answer. -/
theorem C1_counterexample :
    (handle_timeout c1qd c1state).map
        (fun t => t.answers.map (fun r => (r.user_answer, r.correct))) =
      some [(none, false)] ∧
    (handle_timeout c1qd c1state).map
        (fun t => (t.consecutive_correct, t.current_difficulty)) =
      some (1, "Intermediate") ∧
    ¬ (handle_timeout c1qd c1state).map
        (fun t => (t.consecutive_correct, t.current_difficulty)) =
      some (0, "Beginner") := by
  decide

/-- C1 amended: a question turn that times out with no submission appends an
`AnswerRecord` whose `user_answer` is absent and whose `correct` field is
false, but the difficulty controller is not invoked: both the
consecutive-correct counter and the difficulty level are left exactly as
they were. -/
theorem C1_timeout_records_incorrect_skips_controller (qd : QuestionData)
    (s : SessionState) (q : String) (hq : qd.question = some q) :
    handle_timeout qd s =
      some { s with
        timer_expired := true
        show_answer := true
        answers := s.answers ++
          [{ question := q, user_answer := none, correct := false,
             concept := qd.concept, difficulty := none }]
        force_rerun := true } ∧
    (handle_timeout qd s).map SessionState.consecutive_correct =
      some s.consecutive_correct ∧
    (handle_timeout qd s).map SessionState.current_difficulty =
      some s.current_difficulty := by
  refine ⟨?_, ?_, ?_⟩ <;> simp [handle_timeout, hq]

/-- C1 amended witness: the timeout record and untouched controller state at
the concrete inputs of the counterexample. -/
theorem C1_timeout_records_incorrect_skips_controller_witness :
    handle_timeout c1qd c1state =
      some { c1state with
        timer_expired := true
        show_answer := true
        answers := c1state.answers ++
          [{ question := "What does a for loop do?", user_answer := none, correct := false,
             concept := c1qd.concept, difficulty := none }]
        force_rerun := true } ∧
    (handle_timeout c1qd c1state).map SessionState.consecutive_correct =
      some c1state.consecutive_correct ∧
    (handle_timeout c1qd c1state).map SessionState.current_difficulty =
      some c1state.current_difficulty :=
  C1_timeout_records_incorrect_skips_controller c1qd c1state
    "What does a for loop do?" rfl

/-! ### C4 -/

def c4scenario : SessionState :=
  { userInputsAdaptive := true, current_difficulty := "Beginner",
    consecutive_correct := 0, score := 0, answers := [], asked_concepts := [],
    show_answer := false, timer_expired := false, answer_submitted := false,
    force_rerun := false }

/-- C4: with adaptive progression on and the level strictly below the
maximum, a correct answer increments the consecutive-correct counter; when
the incremented counter reaches the threshold 2 the level's index advances
by exactly one and the counter resets to 0, otherwise the level is
unchanged. In particular two consecutive correct answers from
(`"Beginner"`, counter 0) yield (`"Intermediate"`, counter 0). -/
theorem C4_correct_below_max_advances (s : SessionState)
    (hA : s.userInputsAdaptive = true)
    (hmem : s.current_difficulty ∈ difficultyLevels)
    (hmax : s.current_difficulty ≠ "Hiring Challenge") :
    (update_difficulty s true).map SessionState.consecutive_correct =
      some (if 2 ≤ s.consecutive_correct + 1 then 0 else s.consecutive_correct + 1) ∧
    (update_difficulty s true).map
        (fun t => difficultyLevels.indexOf t.current_difficulty) =
      some (if 2 ≤ s.consecutive_correct + 1 then
              difficultyLevels.indexOf s.current_difficulty + 1
            else difficultyLevels.indexOf s.current_difficulty) ∧
    ((update_difficulty c4scenario true).bind (fun t => update_difficulty t true)).map
        (fun t => (t.current_difficulty, t.consecutive_correct)) =
      some ("Intermediate", 0) := by
  refine ⟨?_, ?_, by decide⟩ <;>
  · simp only [difficultyLevels, List.mem_cons, List.not_mem_nil, or_false] at hmem
    rcases hmem with hd | hd | hd | hd <;>
      first
      | exact absurd hd hmax
      | · by_cases hc : 2 ≤ s.consecutive_correct + 1 <;>
            simp [update_difficulty, hA, hd, hc] <;> decide

/-- C4 witness: one correct answer from (`"Beginner"`, counter 1) under the
adaptive policy, discharging the level-below-maximum hypotheses. -/
theorem C4_correct_below_max_advances_witness :
    (update_difficulty { c4scenario with consecutive_correct := 1 } true).map
        SessionState.consecutive_correct =
      some (if 2 ≤ ({ c4scenario with consecutive_correct := 1 } :
              SessionState).consecutive_correct + 1 then 0
            else ({ c4scenario with consecutive_correct := 1 } :
              SessionState).consecutive_correct + 1) ∧
    (update_difficulty { c4scenario with consecutive_correct := 1 } true).map
        (fun t => difficultyLevels.indexOf t.current_difficulty) =
      some (if 2 ≤ ({ c4scenario with consecutive_correct := 1 } :
              SessionState).consecutive_correct + 1 then
              difficultyLevels.indexOf ({ c4scenario with consecutive_correct := 1 } :
                SessionState).current_difficulty + 1
            else difficultyLevels.indexOf ({ c4scenario with consecutive_correct := 1 } :
              SessionState).current_difficulty) ∧
    ((update_difficulty c4scenario true).bind (fun t => update_difficulty t true)).map
        (fun t => (t.current_difficulty, t.consecutive_correct)) =
      some ("Intermediate", 0) :=
  C4_correct_below_max_advances { c4scenario with consecutive_correct := 1 }
    rfl (by decide) (by decide)

/-! ### C5 -/

def c5scenario : SessionState :=
  { userInputsAdaptive := true, current_difficulty := "Intermediate",
    consecutive_correct := 1, score := 3, answers := [], asked_concepts := [],
    show_answer := false, timer_expired := false, answer_submitted := false,
    force_rerun := false }

/-- C5: with adaptive progression on, an incorrect answer resets the
consecutive-correct counter to 0 and moves the level to the one at index
`indexOf - 1` (truncated subtraction: the index drops by exactly one when
above the minimum and stays 0 at `"Beginner"`). In particular one incorrect
answer from `"Intermediate"` yields (`"Beginner"`, counter 0). -/
theorem C5_incorrect_resets_and_drops (s : SessionState)
    (hA : s.userInputsAdaptive = true)
    (hmem : s.current_difficulty ∈ difficultyLevels) :
    (update_difficulty s false).map SessionState.consecutive_correct = some 0 ∧
    (update_difficulty s false).map SessionState.current_difficulty =
      some (difficultyLevels.getD
        (difficultyLevels.indexOf s.current_difficulty - 1) "") ∧
    (update_difficulty c5scenario false).map
        (fun t => (t.current_difficulty, t.consecutive_correct)) =
      some ("Beginner", 0) := by
  refine ⟨?_, ?_, by decide⟩ <;>
  · simp only [difficultyLevels, List.mem_cons, List.not_mem_nil, or_false] at hmem
    rcases hmem with hd | hd | hd | hd <;> simp [update_difficulty, hA, hd] <;> decide

/-- C5 witness: one incorrect answer from the concrete `"Intermediate"`
state, discharging the membership hypothesis. -/
theorem C5_incorrect_resets_and_drops_witness :
    (update_difficulty c5scenario false).map SessionState.consecutive_correct = some 0 ∧
    (update_difficulty c5scenario false).map SessionState.current_difficulty =
      some (difficultyLevels.getD
        (difficultyLevels.indexOf c5scenario.current_difficulty - 1) "") ∧
    (update_difficulty c5scenario false).map
        (fun t => (t.current_difficulty, t.consecutive_correct)) =
      some ("Beginner", 0) :=
  C5_incorrect_resets_and_drops c5scenario rfl (by decide)

/-! ### C7 -/

/-- C7: the concept slice handed to the generation prompt by `get_question`
has exactly `min 5 (length)` entries — so never more than 5 — and is a
suffix of the full history: the history splits as the dropped prefix
followed by the slice, hence the slice is exactly the most recent 5 entries,
or the whole history when it is shorter than 5. -/
theorem C7_prompt_slice_last_five (l : List String) :
    (promptedConcepts l).length = min 5 l.length ∧
    (promptedConcepts l).length ≤ 5 ∧
    l.take (l.length - 5) ++ promptedConcepts l = l := by
  refine ⟨?_, ?_, List.take_append_drop _ _⟩ <;>
  · simp only [promptedConcepts, List.length_drop]
    omega

/-! ### C6 -/

/-- When every remaining attempt of the retry loop fails, the loop falls
through to the fallback record, whatever the accumulated delay. -/
theorem get_question_go_fail (chain : List String → Nat → GenResult) (p : List String) :
    ∀ (fuel attempt : Nat) (delay : ℚ),
      (∀ i, i < fuel → (chain p (attempt + i)).isFailure = true) →
      (get_question_go chain p attempt fuel delay).1 = fallbackQuestion := by
  intro fuel
  induction fuel with
  | zero => intro attempt delay _; rfl
  | succ n ih =>
    intro attempt delay h
    have h0 := h 0 (Nat.succ_pos n)
    rw [Nat.add_zero] at h0
    have hshift : ∀ i, i < n → (chain p (attempt + 1 + i)).isFailure = true := by
      intro i hi
      have := h (i + 1) (Nat.succ_lt_succ hi)
      have e : attempt + (i + 1) = attempt + 1 + i := by omega
      rwa [e] at this
    cases hc : chain p attempt with
    | success q => rw [hc] at h0; simp [GenResult.isFailure] at h0
    | rateLimited =>
        simp only [get_question_go, hc]
        exact ih (attempt + 1) (delay + base_delay * 2 ^ attempt) hshift
    | validationError =>
        simp only [get_question_go, hc]
        exact ih (attempt + 1) delay hshift

/-- C6: when every one of the `max_retries = 3` attempts fails (with a
rate-limit or a validation error, in any mix), `get_question` returns the
one fixed fallback record, whose `concept` field is `"API Reliability"`;
the result does not depend on the failing chain, so every exhaustion yields
the same record. -/
theorem C6_fallback_on_exhaustion (chain : List String → Nat → GenResult)
    (asked : List String)
    (h : ∀ i, i < max_retries → (chain (promptedConcepts asked) i).isFailure = true) :
    (get_question chain asked).1 = fallbackQuestion ∧
    fallbackQuestion.concept = some "API Reliability" := by
  refine ⟨?_, rfl⟩
  exact get_question_go_fail chain (promptedConcepts asked) max_retries 0 0
    (fun i hi => by simpa using h i hi)

/-- C6 witness: a chain that always reports a validation error exhausts its
three attempts and yields the fallback record. -/
theorem C6_fallback_on_exhaustion_witness :
    (get_question (fun _ _ => GenResult.validationError) ["Loops"]).1 = fallbackQuestion ∧
    fallbackQuestion.concept = some "API Reliability" :=
  C6_fallback_on_exhaustion (fun _ _ => GenResult.validationError) ["Loops"] (by decide)

/-! ### C3 -/

def c3q : QuestionData :=
  { question := some "Which structure is FIFO?", choices := some ["Queue", "Stack", "Tree", "Heap"],
    correct_answer := some "Queue", explanation := some "first in, first out",
    concept := some "Data Structures" }

def c3chain : List String → Nat → GenResult :=
  fun _ attempt => if attempt < 2 then GenResult.rateLimited else GenResult.success c3q

/-- C3 counterexample: with rate-limit failures on the first two attempts
(`attempt = 0, 1`) and success on the third, `get_question` does return the
third attempt's question, but the two backoff sleeps are
`base_delay * 2^0` and `base_delay * 2^1`, totalling `base_delay * 3 = 4.5`
seconds — not the claimed `base_delay*2 + base_delay*4 = 9` seconds. -/
theorem C3_counterexample :
    (get_question c3chain []).1 = c3q ∧
    (get_question c3chain []).2 = base_delay * 1 + base_delay * 2 ∧
    ¬ (get_question c3chain []).2 = base_delay * 2 + base_delay * 4 := by
  have hval : (get_question c3chain []).2 = base_delay * 1 + base_delay * 2 := by
    simp [get_question, max_retries, get_question_go, c3chain, promptedConcepts]
  refine ⟨rfl, hval, ?_⟩
  rw [hval]
  norm_num [base_delay]

/-- C3 amended: if the chain raises a rate-limit error on the first two
attempts and succeeds on the third, `get_question` returns the question of
the successful third attempt, and the total delay slept across the two
backoffs equals `base_delay * 2^0 + base_delay * 2^1`, i.e.
`base_delay * 1 + base_delay * 2`. -/
theorem C3_two_rate_limits_then_success (chain : List String → Nat → GenResult)
    (asked : List String) (q : QuestionData)
    (h0 : chain (promptedConcepts asked) 0 = GenResult.rateLimited)
    (h1 : chain (promptedConcepts asked) 1 = GenResult.rateLimited)
    (h2 : chain (promptedConcepts asked) 2 = GenResult.success q) :
    get_question chain asked = (q, base_delay * 1 + base_delay * 2) := by
  show get_question_go chain (promptedConcepts asked) 0 max_retries 0 = _
  simp only [max_retries, get_question_go, h0, h1, h2]
  norm_num

/-- C3 amended witness: the concrete chain of the counterexample satisfies
the three attempt hypotheses. -/
theorem C3_two_rate_limits_then_success_witness :
    get_question c3chain [] = (c3q, base_delay * 1 + base_delay * 2) :=
  C3_two_rate_limits_then_success c3chain [] c3q rfl rfl rfl

/-! ### C8 -/

def c8form : ConfigForm :=
  { test_name := "Full Stack Evaluation", question_count := 5, time_limit := "30 mins",
    adaptive_progression := true, target_role := ["SDE II"], difficulty := "Beginner",
    tech_stack := "Python, React, SQL, System Design", question_style := [] }

/-- C8 counterexample: submitting the configuration form with an empty style
set does not fail at session start — the submit branch validates nothing and
marks the quiz started — and the configuration error surfaces only later,
during the first question turn, when `random.choice` over the empty style
list raises (`none`). -/
theorem C8_counterexample :
    (submit_config c8form).quiz_started = true ∧
    pick_style (submit_config c8form) 0 = none :=
  ⟨rfl, rfl⟩

/-- C8 amended: the configuration form performs no validation at session
start: a configuration with an empty style set is accepted and the quiz is
marked started, and the failure occurs only when a question turn draws a
style from the empty set; a non-positive question count, however, can never
arise because the Question Count slider clamps its value to the range
`[1, 50]`. -/
theorem C8_no_start_validation (f : ConfigForm) (k v : Nat)
    (hempty : f.question_style = []) :
    (submit_config f).quiz_started = true ∧
    pick_style (submit_config f) k = none ∧
    1 ≤ slider_value 1 50 v := by
  refine ⟨rfl, ?_, ?_⟩
  · simp [pick_style, random_choice, submit_config, hempty]
  · simp only [slider_value]
    omega

/-- C8 amended witness: the concrete empty-style form. -/
theorem C8_no_start_validation_witness :
    (submit_config c8form).quiz_started = true ∧
    pick_style (submit_config c8form) 3 = none ∧
    1 ≤ slider_value 1 50 0 :=
  C8_no_start_validation c8form 3 0 rfl

/-! ### C10 -/

/-- C10: when the current question record has no `correct_answer` field
(absent key or explicit `None`, both read back as `None` by `dict.get`), a
submitted choice — being a string — never compares equal to it, so the
submission handler of the active code path scores the turn as incorrect:
the score is unchanged and the appended `AnswerRecord` carries the chosen
answer with `correct = false`. -/
theorem C10_missing_answer_scored_incorrect (qd : QuestionData) (choice q : String)
    (s : SessionState) (hca : qd.correct_answer = none) (hq : qd.question = some q)
    (hmem : s.current_difficulty ∈ difficultyLevels) :
    (handle_submission qd choice s).map SessionState.score = some s.score ∧
    (handle_submission qd choice s).map
        (fun t => t.answers.map (fun r => (r.user_answer, r.correct))) =
      some (s.answers.map (fun r => (r.user_answer, r.correct)) ++ [(some choice, false)]) := by
  by_cases hA : s.userInputsAdaptive = false
  · constructor <;> simp [handle_submission, hca, hq, update_difficulty, hA]
  · rw [Bool.not_eq_false] at hA
    simp only [difficultyLevels, List.mem_cons, List.not_mem_nil, or_false] at hmem
    rcases hmem with hd | hd | hd | hd <;>
      constructor <;> simp [handle_submission, hca, hq, update_difficulty, hA, hd]

def c10qd : QuestionData :=
  { question := some "Pick one", choices := some ["a", "b", "c", "d"],
    correct_answer := none, explanation := none, concept := some "Edge Cases" }

def c10state : SessionState :=
  { userInputsAdaptive := true, current_difficulty := "Senior Level",
    consecutive_correct := 1, score := 7, answers := [], asked_concepts := [],
    show_answer := false, timer_expired := false, answer_submitted := false,
    force_rerun := false }

/-- C10 witness: submitting `"a"` against a record without a
`correct_answer` leaves the score at 7 and appends an incorrect record. -/
theorem C10_missing_answer_scored_incorrect_witness :
    (handle_submission c10qd "a" c10state).map SessionState.score = some c10state.score ∧
    (handle_submission c10qd "a" c10state).map
        (fun t => t.answers.map (fun r => (r.user_answer, r.correct))) =
      some (c10state.answers.map (fun r => (r.user_answer, r.correct)) ++
        [(some "a", false)]) :=
  C10_missing_answer_scored_incorrect c10qd "a" "Pick one" c10state rfl rfl (by decide)

end AdaptiQuiz
